import Mathlib

/- Shallow embedding of src/plyoreacto/src/event_engine.rs.

   The engine is modelled at the level of the observable transport
   actions each function performs (socket creation, bind, connect,
   topic-filter resolution and installation, rendezvous send/receive,
   thread spawn, entry-point invocation, proxy start), in the order the
   source performs them.  Each fallible call (a Rust .expect) carries
   the exact panic message of the source.  println logging is not
   modelled.  Rust i32 plugin ids are embedded as Nat (every configured
   id is nonnegative); usize loop counters are Nat.  The external topic
   filter resolver crate::events::get_event_type_bytes_filter is a
   parameter "resolve" throughout, its byte output embedded as List Nat. -/

namespace Plyoreacto

/-- Socket kinds used by the engine: zmq PUB, SUB, REQ, REP. -/
inductive SockKind where
  | pub
  | sub
  | req
  | rep
deriving DecidableEq

/-- Transport endpoints appearing in the source, one constructor per
    distinct endpoint-string shape of the source. -/
inductive Endpoint where
  | tcpWild (port : Nat)
  | inprocEvents
  | inprocMessages
  | inprocSync (port : Nat)
deriving DecidableEq

/-- Rendering an endpoint back to the literal endpoint string of the
    source (the format! results). -/
def Endpoint.render : Endpoint → String
  | .tcpWild p => "tcp://*:" ++ toString p
  | .inprocEvents => "inproc://events"
  | .inprocMessages => "inproc://messages"
  | .inprocSync p => "inproc://sync-" ++ toString p

/-- Whether an endpoint uses the local-process (inproc) transport. -/
def Endpoint.isInproc : Endpoint → Bool
  | .tcpWild _ => false
  | _ => true

/-- Payloads of the rendezvous handshake: the source strings "ready"
    (plugin request) and "ok" (engine reply). -/
inductive SyncMsg where
  | ready
  | ok
deriving DecidableEq

/-- One observable action of the engine or of a plugin thread. -/
inductive Act where
  | createSocket (k : SockKind)
  | bind (e : Endpoint)
  | connect (e : Endpoint)
  | resolveTopic (topic : String)
  | setSubscribe (filter : List Nat)
  | sendReq (port : Nat) (m : SyncMsg)
  | recvReq (port : Nat)
  | sendRep (port : Nat) (m : SyncMsg)
  | recvRep (port : Nat)
  | spawnThread (plugin_id : Nat)
  | invokeEntry (plugin_id : Nat) (builder : List Nat)
  | proxyRun (frontend backend : List Endpoint)
deriving DecidableEq

/-- How a call can go wrong: a fallible call is a Rust .expect that
    panics with the recorded message on failure; an infallible call
    cannot fail; a blocking call never returns on success (zmq::proxy,
    and a plugin entry point that runs forever) and panics with the
    recorded message when the underlying operation reports an error. -/
inductive CKind where
  | fallible (failMsg : String)
  | infallible
  | blocking (failMsg : String)
deriving DecidableEq

/-- One call of the source: the action it performs plus its failure
    behaviour. -/
structure Call where
  act : Act
  kind : CKind
deriving DecidableEq

/-- How a run of a function ends.  ioError is the Err variant of the
    std io Result return type; the source never constructs it, which is
    exactly what claim C7 asserts. -/
inductive Outcome where
  | ok
  | ioError (e : String)
  | panicked (msg : String)
  | diverged
deriving DecidableEq

def Outcome.isOk : Outcome → Bool
  | .ok => true
  | _ => false

def Outcome.isIoError : Outcome → Bool
  | .ioError _ => true
  | _ => false

def Outcome.isPanicked : Outcome → Bool
  | .panicked _ => true
  | _ => false

/-- Whether a panicked outcome carries one of the given messages
    (vacuously true for every non-panicked outcome). -/
def Outcome.msgFrom : Outcome → List String → Bool
  | .panicked m, msgs => msgs.contains m
  | _, _ => true

/-- Run a list of calls under a failure oracle: oracle i = true means
    the i-th call (0-based, counted from the given start index) fails.
    Returns the outcome together with the successfully executed actions. -/
def runCallsFrom (oracle : Nat → Bool) : Nat → List Call → Outcome × List Act
  | _, [] => (.ok, [])
  | i, c :: rest =>
    match c.kind with
    | .infallible =>
        let r := runCallsFrom oracle (i + 1) rest
        (r.1, c.act :: r.2)
    | .fallible m =>
        if oracle i then (.panicked m, [])
        else
          let r := runCallsFrom oracle (i + 1) rest
          (r.1, c.act :: r.2)
    | .blocking m =>
        if oracle i then (.panicked m, []) else (.diverged, [c.act])

/-- Run a function whose call list may itself have failed to be built
    (the Vec::pop .expect inside sync_plugins is the only such case;
    its message is the error payload). -/
def runFn (oracle : Nat → Bool) : Except String (List Call) → Outcome × List Act
  | .error m => (.panicked m, [])
  | .ok calls => runCallsFrom oracle 0 calls

/-- True when the oracle makes some call that is actually attempted
    fail (calls after a successful blocking call are never attempted). -/
def failsSome (oracle : Nat → Bool) : Nat → List Call → Bool
  | _, [] => false
  | i, c :: rest =>
    match c.kind with
    | .infallible => failsSome oracle (i + 1) rest
    | .fallible _ => oracle i || failsSome oracle (i + 1) rest
    | .blocking _ => oracle i

/-- The panic message of a call, when it has one. -/
def Call.failMsg? (c : Call) : Option String :=
  match c.kind with
  | .fallible m => some m
  | .blocking m => some m
  | .infallible => none

/-- All panic messages a list of calls can raise. -/
def callMsgs (calls : List Call) : List String :=
  calls.filterMap Call.failMsg?

/-- All panic messages a possibly-failed call-list construction can
    raise (the construction error message, or the calls own messages). -/
def exceptMsgs : Except String (List Call) → List String
  | .error m => [m]
  | .ok calls => callMsgs calls

/- ---------------------------------------------------------------------
   The static plugin configuration (the PLUGINS and EXTERNAL_PLUGINS
   constants of the source). -/

/-- Tags for the three plugin start functions referenced by the
    configuration; their bodies live in other modules and are outside
    the engine under specification. -/
inductive StartFn where
  | new_image_start
  | image_score_start
  | image_store_start
deriving DecidableEq

/-- struct PluginConfig of the source. -/
structure PluginConfig where
  plugin_id : Nat
  subscriptions : List String
  start_function : StartFn
deriving DecidableEq

/-- struct ExternalPluginConfig of the source. -/
structure ExternalPluginConfig where
  plugin_id : Nat
deriving DecidableEq

/-- const PLUGINS of the source. -/
def PLUGINS : List PluginConfig :=
  [⟨0, [], .new_image_start⟩,
   ⟨1, ["NewImageEvent"], .image_score_start⟩,
   ⟨2, ["ImageScoredEvent"], .image_store_start⟩]

/-- const EXTERNAL_PLUGINS of the source. -/
def EXTERNAL_PLUGINS : List ExternalPluginConfig := [⟨3⟩]

/- ---------------------------------------------------------------------
   Transport endpoint functions of the source. -/

/-- fn get_outgoing_socket: PUB socket bound to tcp port 5560 and to
    the inproc events address; returns Ok(socket). -/
def get_outgoing_socket_calls : List Call :=
  [⟨.createSocket .pub, .fallible "Engine could not create outgoing socket"⟩,
   ⟨.bind (.tcpWild 5560), .fallible "Engine could not bind outgoing TCP socket"⟩,
   ⟨.bind .inprocEvents, .fallible "Engine could not bind outgoing inproc socket"⟩]

/-- The endpoints the outgoing (egress) socket is bound to. -/
def outgoing_endpoints : List Endpoint := [.tcpWild 5560, .inprocEvents]

/-- fn get_incoming_socket: SUB socket bound to tcp port 5559 and to
    the inproc messages address, subscribed to everything with the
    empty filter (String::new() as bytes); returns Ok(socket). -/
def get_incoming_socket_calls : List Call :=
  [⟨.createSocket .sub, .fallible "Engine could not create incoming socket"⟩,
   ⟨.bind (.tcpWild 5559), .fallible "Engine could not bind incoming TCP socket"⟩,
   ⟨.bind .inprocMessages, .fallible "Engine could not bind incoming inproc socket"⟩,
   ⟨.setSubscribe [], .fallible "Engine could not subscribe to all events on incoming socket"⟩]

/-- The endpoints the incoming (ingress) socket is bound to. -/
def incoming_endpoints : List Endpoint := [.tcpWild 5559, .inprocMessages]

/- ---------------------------------------------------------------------
   fn start_plugin: the wiring performed on the launching thread,
   followed by the spawn of the plugin thread. -/

/-- The calls start_plugin performs on the launching thread, in source
    order: pub socket connected to the ingress inproc address, sub
    socket connected to the egress inproc address with one resolved
    filter installed per declared subscription, REQ sync socket
    connected to the inproc rendezvous address 5000 + plugin_id, and
    finally the thread spawn. -/
def start_plugin_calls (resolve : String → List Nat)
    (plugin_id : Nat) (subscriptions : List String) : List Call :=
  [⟨.createSocket .pub, .fallible "could not create pub socket."⟩,
   ⟨.connect .inprocMessages, .fallible "could not connect to pub socket"⟩,
   ⟨.createSocket .sub, .fallible "could not create subscription socket."⟩,
   ⟨.connect .inprocEvents, .fallible "could not connect to subscriptions socket"⟩]
  ++ subscriptions.flatMap (fun s =>
      [⟨.resolveTopic s, .fallible "could not get bytes filter"⟩,
       ⟨.setSubscribe (resolve s), .fallible "could not subscribe to event type"⟩])
  ++ [⟨.createSocket .req, .fallible "plugin could not create sync socket."⟩,
      ⟨.connect (.inprocSync (5000 + plugin_id)), .fallible "plugin could not connect to sync socket."⟩,
      ⟨.spawnThread plugin_id, .infallible⟩]

/-- The calls of the closure start_plugin spawns: send "ready" on the
    sync socket, block for the reply, then create a fresh
    FlatBufferBuilder (embedded as the empty byte list handed to the
    entry point) and invoke the plugin start function, which is
    expected to run forever and panics the thread if it returns an
    error. -/
def plugin_thread_calls (plugin_id : Nat) : List Call :=
  [⟨.sendReq (5000 + plugin_id) .ready, .fallible "plugin could not send sync message"⟩,
   ⟨.recvRep (5000 + plugin_id), .fallible "plugin got error trying to receive sync reply"⟩,
   ⟨.invokeEntry plugin_id [], .blocking "got error executing plugin start function"⟩]

/- ---------------------------------------------------------------------
   fn sync_plugins: the synchronization barrier. -/

/-- The calls of one iteration of the first barrier loop, at loop
    counter value ready (the source: port = 5000 + ready_subscribers,
    REP socket, bind tcp, bind inproc, recv one message, push socket). -/
def sync_ready_block (ready : Nat) : List Call :=
  [⟨.createSocket .rep, .fallible "Engine could not create synchronization socket"⟩,
   ⟨.bind (.tcpWild (5000 + ready)), .fallible "Engine could not bind sync TCP socket."⟩,
   ⟨.bind (.inprocSync (5000 + ready)), .fallible "Engine could not bind sync inproc socket."⟩,
   ⟨.recvReq (5000 + ready), .fallible "Engine got error receiving sync message"⟩]

/-- First loop of sync_plugins: while ready_subscribers <
    total_subscribers, bind the next rendezvous socket, receive one
    message on it, push it onto sync_sockets.  The first argument is
    the number of remaining iterations (total - ready); sockets are
    represented by their rendezvous port. -/
def sync_ready_loop : Nat → Nat → List Nat → List Nat × List Call
  | 0, _, socks => (socks, [])
  | remaining + 1, ready, socks =>
    let r := sync_ready_loop remaining (ready + 1) (socks ++ [5000 + ready])
    (r.1, sync_ready_block ready ++ r.2)

/-- The reply call sync_plugins sends on a popped socket. -/
def ackCall (port : Nat) : Call :=
  ⟨.sendRep port .ok, .fallible "Engine got error trying to send sync reply."⟩

/-- Second loop of sync_plugins: while msg_sent < total_subscribers,
    pop a socket from the end of sync_sockets (Vec::pop) and send the
    "ok" reply on it; an empty pop is the
    .expect "Could not get sync socket" panic, carried as the error. -/
def sync_reply_loop : Nat → List Nat → Except String (List Call)
  | 0, _ => .ok []
  | remaining + 1, socks =>
    match socks.getLast? with
    | none => .error "Could not get sync socket"
    | some port =>
        (sync_reply_loop remaining socks.dropLast).map
          (fun rest => ackCall port :: rest)

/-- fn sync_plugins, parametrized by total_subscribers (in the source
    the local value PLUGINS.len() + EXTERNAL_PLUGINS.len()). -/
def sync_plugins_calls (total_subscribers : Nat) : Except String (List Call) :=
  let r := sync_ready_loop total_subscribers 0 []
  (sync_reply_loop total_subscribers r.1).map (fun replies => r.2 ++ replies)

/-- The total participant count the source computes inside
    sync_plugins. -/
def total_subscribers_src : Nat := PLUGINS.length + EXTERNAL_PLUGINS.length

/- ---------------------------------------------------------------------
   fn start_plugins and fn event_engine. -/

/-- fn start_plugins, generalized over the configuration lists (the
    source reads the constants PLUGINS and EXTERNAL_PLUGINS): launch
    every configured in-process plugin in order, then run the barrier
    with total = in-process count + external count. -/
def start_plugins_gen (resolve : String → List Nat)
    (cfg : List PluginConfig) (externals : List ExternalPluginConfig) :
    Except String (List Call) :=
  (sync_plugins_calls (cfg.length + externals.length)).map
    (fun syncCalls =>
      cfg.flatMap (fun p => start_plugin_calls resolve p.plugin_id p.subscriptions)
        ++ syncCalls)

/-- fn start_plugins on the shipped configuration. -/
def start_plugins_calls (resolve : String → List Nat) : Except String (List Call) :=
  start_plugins_gen resolve PLUGINS EXTERNAL_PLUGINS

/-- fn event_engine, main thread: create the outgoing (egress) socket,
    create the incoming (ingress) socket, start and sync the plugins,
    then run zmq::proxy(&incoming, &outgoing), which blocks forever
    and panics only if the underlying transport reports an error. -/
def event_engine_calls (resolve : String → List Nat) : Except String (List Call) :=
  (start_plugins_calls resolve).map
    (fun sp =>
      get_outgoing_socket_calls ++ get_incoming_socket_calls ++ sp
        ++ [⟨.proxyRun incoming_endpoints outgoing_endpoints,
             .blocking "Engine got error running proxy; socket was closed?"⟩])

/-- The action trace of the event_engine main thread (empty in the
    unreachable case that the call list fails to build). -/
def event_engine_trace (resolve : String → List Nat) : List Act :=
  match event_engine_calls resolve with
  | .ok calls => calls.map Call.act
  | .error _ => []

/- ---------------------------------------------------------------------
   Extractors over action traces. -/

/-- The endpoints of the connect actions of a trace, in order. -/
def connectEndpoints (l : List Act) : List Endpoint :=
  l.filterMap fun a =>
    match a with
    | .connect e => some e
    | _ => none

/-- The endpoints of the bind actions of a trace, in order. -/
def bindEndpoints (l : List Act) : List Endpoint :=
  l.filterMap fun a =>
    match a with
    | .bind e => some e
    | _ => none

/-- The filters installed by the setSubscribe actions of a trace. -/
def subscribeFilters (l : List Act) : List (List Nat) :=
  l.filterMap fun a =>
    match a with
    | .setSubscribe f => some f
    | _ => none

/-- The rendezvous ports on which ready requests are received, in
    order. -/
def recvReqPorts (l : List Act) : List Nat :=
  l.filterMap fun a =>
    match a with
    | .recvReq p => some p
    | _ => none

/-- The rendezvous ports on which acknowledgment replies are sent, in
    order. -/
def sendRepPorts (l : List Act) : List Nat :=
  l.filterMap fun a =>
    match a with
    | .sendRep p _ => some p
    | _ => none

/-- Whether an action is a spawn. -/
def isSpawn : Act → Bool
  | .spawnThread _ => true
  | _ => false

/-- Whether an action starts the relay proxy. -/
def isProxy : Act → Bool
  | .proxyRun _ _ => true
  | _ => false

/-- Whether an action is a ready receipt. -/
def isRecvReq : Act → Bool
  | .recvReq _ => true
  | _ => false

/-- Whether an action is an acknowledgment send. -/
def isSendRep : Act → Bool
  | .sendRep _ _ => true
  | _ => false

/- ---------------------------------------------------------------------
   Derived traces and the interleaving semantics. -/

/-- The action trace of the barrier at participant count total: first
    the ready phase, one 4-action block per counter value k in
    ascending order, then the acknowledgment phase, one reply per port
    in descending port order. -/
def barrier_acts (total : Nat) : List Act :=
  (List.range total).flatMap (fun k => (sync_ready_block k).map Call.act)
    ++ (List.range total).reverse.map (fun k => Act.sendRep (5000 + k) .ok)

/-- Follows the words of the spec (section 4.3, Algorithm), ready
    phase: for each counter value k in ascending order, open a
    reply-side handle, bind it to address base_port + k on the network
    transport and on the local-process transport, and receive exactly
    one request on it; address k + 1 is bound only after the request on
    address k arrived. -/
def barrier_spec_ready_acts (total : Nat) : List Act :=
  (List.range total).flatMap (fun k =>
    [Act.createSocket .rep, Act.bind (.tcpWild (5000 + k)),
     Act.bind (.inprocSync (5000 + k)), Act.recvReq (5000 + k)])

/-- Follows the words of the spec (section 4.3, Algorithm),
    acknowledgment phase: one reply per retained handle; the spec
    leaves the order arbitrary, so it is compared up to permutation. -/
def barrier_spec_acks (total : Nat) : List Act :=
  (List.range total).map (fun k => Act.sendRep (5000 + k) .ok)

/-- Modelled from the spec: the relay contract of the external
    zmq::proxy collaborator (section 4.4) — every message received on
    the ingress endpoint is forwarded to the egress endpoint verbatim,
    with no inspection, transformation, buffering, or rate limiting.
    The proxy call itself, its argument order (ingress as frontend,
    egress as backend) and its blocking and panic behaviour are
    embedded from the source in event_engine_calls. -/
def relay_forward (msgs : List (List Nat)) : List (List Nat) := msgs

/-- The action trace of the thread start_plugin spawns. -/
def plugin_thread_trace (plugin_id : Nat) : List Act :=
  (plugin_thread_calls plugin_id).map Call.act

/-- Modelled from the spec: the external participant contract
    (section 6) — an out-of-process participant with a statically
    assigned id opens a request-style connection to the rendezvous
    address for that id, sends one message, and awaits exactly one
    reply.  External participants are outside this repository; only
    their boundary behaviour enters the system model. -/
def external_participant_trace (plugin_id : Nat) : List Act :=
  [.sendReq (5000 + plugin_id) .ready, .recvRep (5000 + plugin_id)]

/-- The threads of the running system: thread 0 is the engine main
    thread; then one thread per in-process plugin, in configuration
    order; then one per external participant. -/
def system_threads (resolve : String → List Nat) : List (List Act) :=
  event_engine_trace resolve
    :: (PLUGINS.map (fun p => plugin_thread_trace p.plugin_id)
        ++ EXTERNAL_PLUGINS.map (fun e => external_participant_trace e.plugin_id))

/-- Projection of a schedule onto one thread. -/
def proj (s : List (Nat × Act)) (t : Nat) : List Act :=
  (s.filter (fun e => e.1 == t)).map Prod.snd

/-- Placeholder event for out-of-range schedule lookups. -/
def dummyEv : Nat × Act := (0, Act.createSocket .pub)

/-- Whether an action sends a reply on rendezvous port p. -/
def actSendsRep (p : Nat) : Act → Bool
  | .sendRep q _ => q == p
  | _ => false

/-- Whether an action sends a request on rendezvous port p. -/
def actSendsReq (p : Nat) : Act → Bool
  | .sendReq q _ => q == p
  | _ => false

/-- Causality of the rendezvous messages at position i of a schedule:
    a receive on a port must be preceded by a send on the same port. -/
def earlierSendOk (s : List (Nat × Act)) (i : Nat) : Bool :=
  match (s.getD i dummyEv).2 with
  | .recvRep p => (List.range i).any (fun j => actSendsRep p (s.getD j dummyEv).2)
  | .recvReq p => (List.range i).any (fun j => actSendsReq p (s.getD j dummyEv).2)
  | _ => true

/-- A valid (partial) schedule of the system: every event belongs to a
    thread, the projection onto each thread is a prefix of that thread
    trace (threads may be arbitrarily interleaved and need not have
    finished), and every rendezvous receive is preceded by a matching
    send.  Thread starts are not constrained, which only enlarges the
    set of schedules the safety theorem quantifies over. -/
def validExecB (threads : List (List Act)) (s : List (Nat × Act)) : Bool :=
  s.all (fun e => decide (e.1 < threads.length)) &&
  (List.range threads.length).all (fun t => (proj s t).isPrefixOf (threads.getD t [])) &&
  (List.range s.length).all (fun i => earlierSendOk s i)

/-- The engine main trace up to (excluding) the first acknowledgment
    send of the barrier. -/
def main_front (resolve : String → List Nat) : List Act :=
  get_outgoing_socket_calls.map Call.act
    ++ get_incoming_socket_calls.map Call.act
    ++ PLUGINS.flatMap (fun p => (start_plugin_calls resolve p.plugin_id p.subscriptions).map Call.act)
    ++ (List.range total_subscribers_src).flatMap (fun k => (sync_ready_block k).map Call.act)

/-- The engine main trace from the first acknowledgment send on. -/
def main_back : List Act :=
  (List.range total_subscribers_src).reverse.map (fun k => Act.sendRep (5000 + k) .ok)
    ++ [Act.proxyRun incoming_endpoints outgoing_endpoints]

/-- A concrete valid schedule in which plugin 0 reaches its entry
    point: all four participants send their ready requests, the main
    thread runs up to the end of the acknowledgment phase, then plugin
    0 receives its reply and invokes its entry point. -/
def sched_wit : List (Nat × Act) :=
  [(1, .sendReq 5000 .ready), (2, .sendReq 5001 .ready),
   (3, .sendReq 5002 .ready), (4, .sendReq 5003 .ready)]
    ++ (main_front (fun _ => [])
        ++ (List.range total_subscribers_src).reverse.map (fun k => Act.sendRep (5000 + k) .ok)).map
          (fun a => (0, a))
    ++ [(1, .recvRep 5000), (1, .invokeEntry 0 [])]

/- ---------------------------------------------------------------------
   Generic facts about the run semantics. -/

/-- The run of a call list never produces the Err variant of the io
    Result: nothing in the source constructs one. -/
theorem runCallsFrom_not_ioError (oracle : Nat → Bool) :
    ∀ (L : List Call) (i : Nat), ((runCallsFrom oracle i L).1).isIoError = false := by
  intro L
  induction L with
  | nil => intro i; rfl
  | cons c rest ih =>
    intro i
    match hk : c.kind with
    | .infallible =>
      simp only [runCallsFrom, hk]
      exact ih (i + 1)
    | .fallible m =>
      cases h : oracle i with
      | true => simp [runCallsFrom, hk, h, Outcome.isIoError]
      | false =>
        simp only [runCallsFrom, hk, h, Bool.false_eq_true, if_false]
        exact ih (i + 1)
    | .blocking m =>
      cases h : oracle i <;> simp [runCallsFrom, hk, h, Outcome.isIoError]

/-- A run panics exactly when the oracle fails one of the attempted
    calls. -/
theorem runCallsFrom_isPanicked (oracle : Nat → Bool) :
    ∀ (L : List Call) (i : Nat),
      ((runCallsFrom oracle i L).1).isPanicked = failsSome oracle i L := by
  intro L
  induction L with
  | nil => intro i; rfl
  | cons c rest ih =>
    intro i
    match hk : c.kind with
    | .infallible =>
      simp only [runCallsFrom, failsSome, hk]
      exact ih (i + 1)
    | .fallible m =>
      cases h : oracle i with
      | true => simp [runCallsFrom, failsSome, hk, h, Outcome.isPanicked]
      | false =>
        simp only [runCallsFrom, failsSome, hk, h, Bool.false_eq_true, if_false,
          Bool.false_or]
        exact ih (i + 1)
    | .blocking m =>
      cases h : oracle i <;>
        simp [runCallsFrom, failsSome, hk, h, Outcome.isPanicked]

/-- Extending the admissible message list preserves msgFrom. -/
theorem Outcome.msgFrom_cons (o : Outcome) (m : String) (msgs : List String)
    (h : o.msgFrom msgs = true) : o.msgFrom (m :: msgs) = true := by
  cases o with
  | panicked m0 =>
    simp only [Outcome.msgFrom] at h
    have hm : m0 ∈ msgs := List.mem_of_elem_eq_true h
    simp [Outcome.msgFrom, List.contains_cons, hm]
  | ok => rfl
  | ioError e => rfl
  | diverged => rfl

/-- When a run panics, the message is one of the panic messages of the
    call list. -/
theorem runCallsFrom_msgFrom (oracle : Nat → Bool) :
    ∀ (L : List Call) (i : Nat),
      ((runCallsFrom oracle i L).1).msgFrom (callMsgs L) = true := by
  intro L
  induction L with
  | nil => intro i; rfl
  | cons c rest ih =>
    intro i
    match hk : c.kind with
    | .infallible =>
      have : callMsgs (c :: rest) = callMsgs rest := by
        simp [callMsgs, Call.failMsg?, hk]
      rw [this]
      simpa [runCallsFrom, hk] using ih (i + 1)
    | .fallible m =>
      have hmsgs : callMsgs (c :: rest) = m :: callMsgs rest := by
        simp [callMsgs, Call.failMsg?, hk]
      rw [hmsgs]
      cases h : oracle i with
      | true => simp [runCallsFrom, hk, h, Outcome.msgFrom]
      | false =>
        simp only [runCallsFrom, hk, h, Bool.false_eq_true, if_false]
        exact Outcome.msgFrom_cons _ m _ (ih (i + 1))
    | .blocking m =>
      have hmsgs : callMsgs (c :: rest) = m :: callMsgs rest := by
        simp [callMsgs, Call.failMsg?, hk]
      rw [hmsgs]
      cases h : oracle i <;> simp [runCallsFrom, hk, h, Outcome.msgFrom]

/- ---------------------------------------------------------------------
   Closed form of the barrier. -/

/-- Closed form of the first barrier loop: starting from counter value
    ready with n iterations left, it binds and receives on the ports
    5000 + ready, ..., 5000 + ready + n - 1 in ascending order and
    appends them to the socket vector. -/
theorem sync_ready_loop_spec :
    ∀ (n ready : Nat) (socks : List Nat),
      sync_ready_loop n ready socks
        = (socks ++ (List.range' ready n).map (fun k => 5000 + k),
           (List.range' ready n).flatMap sync_ready_block) := by
  intro n
  induction n with
  | zero => intro ready socks; simp [sync_ready_loop]
  | succ m ih =>
    intro ready socks
    simp [sync_ready_loop, ih, List.range'_succ, List.flatMap_cons]

/-- Closed form of the second barrier loop, run for exactly as many
    iterations as there are retained sockets: it pops from the end, so
    the replies go out in reverse push order. -/
theorem sync_reply_loop_spec :
    ∀ (n : Nat) (socks : List Nat), socks.length = n →
      sync_reply_loop n socks = .ok (socks.reverse.map ackCall) := by
  intro n
  induction n with
  | zero =>
    intro socks h
    rw [List.length_eq_zero] at h
    subst h
    rfl
  | succ m ih =>
    intro socks h
    have hne : socks ≠ [] := by
      intro habs; rw [habs] at h; exact absurd h (by simp)
    have hlast := List.getLast?_eq_getLast socks hne
    have hdrop : socks.dropLast.length = m := by
      rw [List.length_dropLast, h]
      omega
    have hrev : socks.reverse = socks.getLast hne :: socks.dropLast.reverse := by
      conv_lhs => rw [← List.dropLast_append_getLast hne]
      rw [List.reverse_append]
      rfl
    simp only [sync_reply_loop, hlast, ih socks.dropLast hdrop, Except.map, hrev,
      List.map_cons]

/-- Closed form of sync_plugins: the pop inside the reply loop never
    fails, and the calls are the ready blocks followed by the replies
    in reverse port order. -/
theorem sync_plugins_calls_spec (total : Nat) :
    sync_plugins_calls total
      = .ok ((List.range total).flatMap sync_ready_block
          ++ ((List.range total).map (fun k => 5000 + k)).reverse.map ackCall) := by
  have h1 := sync_ready_loop_spec total 0 []
  have hlen : (((List.range' 0 total).map (fun k => 5000 + k))).length = total := by
    simp
  have h2 := sync_reply_loop_spec total ((List.range' 0 total).map (fun k => 5000 + k)) hlen
  simp only [sync_plugins_calls, h1, List.nil_append, h2, Except.map, List.range_eq_range']

/-- The barrier action trace in closed form. -/
theorem sync_plugins_acts_spec (total : Nat) :
    ∃ cs, sync_plugins_calls total = .ok cs ∧ cs.map Call.act = barrier_acts total := by
  refine ⟨_, sync_plugins_calls_spec total, ?_⟩
  simp only [barrier_acts, List.map_append, List.map_flatMap, List.map_reverse,
    List.map_map]
  rfl

/- ---------------------------------------------------------------------
   Facts about the start_plugin wiring trace. -/

/-- The action trace of start_plugin, split around the subscription
    section. -/
theorem start_plugin_acts (resolve : String → List Nat) (id : Nat) (subs : List String) :
    (start_plugin_calls resolve id subs).map Call.act
      = [.createSocket .pub, .connect .inprocMessages,
         .createSocket .sub, .connect .inprocEvents]
        ++ subs.flatMap (fun s => [Act.resolveTopic s, Act.setSubscribe (resolve s)])
        ++ [.createSocket .req, .connect (.inprocSync (5000 + id)), .spawnThread id] := by
  simp [start_plugin_calls, List.map_flatMap]

/-- Any filterMap that ignores topic resolutions and filter
    installations vanishes on the subscription section. -/
theorem filterMap_subsec {beta : Type} (f : Act → Option beta) (resolve : String → List Nat)
    (hres : ∀ s, f (.resolveTopic s) = none)
    (hsub : ∀ s, f (.setSubscribe (resolve s)) = none) :
    ∀ subs : List String,
      (subs.flatMap (fun s => [Act.resolveTopic s, Act.setSubscribe (resolve s)])).filterMap f
        = [] := by
  intro subs
  induction subs with
  | nil => rfl
  | cons s rest ih =>
    simp [List.flatMap_cons, List.filterMap_append, List.filterMap_cons, hres, hsub, ih]

/-- The filters the subscription section installs, in order: exactly
    one resolved filter per declared subscription. -/
theorem subscribeFilters_subsec (resolve : String → List Nat) :
    ∀ subs : List String,
      subscribeFilters (subs.flatMap (fun s => [Act.resolveTopic s, Act.setSubscribe (resolve s)]))
        = subs.map resolve := by
  intro subs
  induction subs with
  | nil => rfl
  | cons s rest ih =>
    simp only [subscribeFilters] at ih ⊢
    simp [List.flatMap_cons, List.filterMap_append, List.filterMap_cons, ih]

/-- The endpoints start_plugin connects, for every configuration:
    ingress inproc, egress inproc, rendezvous inproc at 5000 + id. -/
theorem connectEndpoints_start_plugin (resolve : String → List Nat) (id : Nat) (subs : List String) :
    connectEndpoints ((start_plugin_calls resolve id subs).map Call.act)
      = [.inprocMessages, .inprocEvents, .inprocSync (5000 + id)] := by
  rw [start_plugin_acts]
  simp only [connectEndpoints, List.filterMap_append]
  rw [filterMap_subsec _ resolve (fun s => rfl) (fun s => rfl) subs]
  rfl

/-- start_plugin binds nothing: every handle is a connect. -/
theorem bindEndpoints_start_plugin (resolve : String → List Nat) (id : Nat) (subs : List String) :
    bindEndpoints ((start_plugin_calls resolve id subs).map Call.act) = [] := by
  rw [start_plugin_acts]
  simp only [bindEndpoints, List.filterMap_append]
  rw [filterMap_subsec _ resolve (fun s => rfl) (fun s => rfl) subs]
  rfl

/-- The filters start_plugin installs are exactly the resolved
    declared subscriptions, in declaration order. -/
theorem subscribeFilters_start_plugin (resolve : String → List Nat) (id : Nat) (subs : List String) :
    subscribeFilters ((start_plugin_calls resolve id subs).map Call.act) = subs.map resolve := by
  rw [start_plugin_acts]
  simp only [subscribeFilters, List.filterMap_append]
  have h := subscribeFilters_subsec resolve subs
  simp only [subscribeFilters] at h
  rw [h]
  simp

/-- The panic messages of the subscription section are all nonempty. -/
theorem callMsgs_subsec_nonempty (resolve : String → List Nat) :
    ∀ subs : List String,
      (callMsgs (subs.flatMap (fun s =>
        [⟨.resolveTopic s, .fallible "could not get bytes filter"⟩,
         ⟨.setSubscribe (resolve s), .fallible "could not subscribe to event type"⟩]))).all
        (fun m => !m.isEmpty) = true := by
  intro subs
  induction subs with
  | nil => rfl
  | cons s rest ih =>
    simp only [callMsgs] at ih ⊢
    simp only [List.flatMap_cons, List.filterMap_append, List.all_append, ih,
      Bool.and_true]
    rfl

/-- The panic messages of start_plugin are all nonempty. -/
theorem callMsgs_start_plugin_nonempty (resolve : String → List Nat) (id : Nat)
    (subs : List String) :
    (callMsgs (start_plugin_calls resolve id subs)).all (fun m => !m.isEmpty) = true := by
  have h := callMsgs_subsec_nonempty resolve subs
  simp only [callMsgs] at h ⊢
  simp only [start_plugin_calls, List.filterMap_append, List.all_append, h, Bool.and_true]
  rfl

/- ---------------------------------------------------------------------
   Facts about the barrier trace. -/

/-- The ports of the ready receipts of the ready blocks, in block
    order. -/
theorem recvReqPorts_ready_blocks :
    ∀ l : List Nat,
      recvReqPorts (l.flatMap (fun k => (sync_ready_block k).map Call.act))
        = l.map (fun k => 5000 + k) := by
  intro l
  induction l with
  | nil => rfl
  | cons k rest ih =>
    simp only [recvReqPorts] at ih ⊢
    simp only [List.flatMap_cons, List.filterMap_append, ih, List.map_cons]
    rfl

/-- The ready blocks send no replies. -/
theorem sendRepPorts_ready_blocks :
    ∀ l : List Nat,
      sendRepPorts (l.flatMap (fun k => (sync_ready_block k).map Call.act)) = [] := by
  intro l
  induction l with
  | nil => rfl
  | cons k rest ih =>
    simp only [sendRepPorts] at ih ⊢
    simp only [List.flatMap_cons, List.filterMap_append, ih]
    rfl

/-- The endpoints the ready blocks bind, in order: the network and the
    local-process address of each port. -/
theorem bindEndpoints_ready_blocks :
    ∀ l : List Nat,
      bindEndpoints (l.flatMap (fun k => (sync_ready_block k).map Call.act))
        = l.flatMap (fun k => [Endpoint.tcpWild (5000 + k), Endpoint.inprocSync (5000 + k)]) := by
  intro l
  induction l with
  | nil => rfl
  | cons k rest ih =>
    simp only [bindEndpoints] at ih ⊢
    simp only [List.flatMap_cons, List.filterMap_append, ih]
    rfl

/-- The acknowledgment phase receives nothing. -/
theorem recvReqPorts_acks :
    ∀ l : List Nat,
      recvReqPorts (l.map (fun k => Act.sendRep (5000 + k) .ok)) = [] := by
  intro l
  induction l with
  | nil => rfl
  | cons k rest ih =>
    simp only [recvReqPorts] at ih ⊢
    simp [List.filterMap_cons, ih]

/-- The acknowledgment phase binds nothing. -/
theorem bindEndpoints_acks :
    ∀ l : List Nat,
      bindEndpoints (l.map (fun k => Act.sendRep (5000 + k) .ok)) = [] := by
  intro l
  induction l with
  | nil => rfl
  | cons k rest ih =>
    simp only [bindEndpoints] at ih ⊢
    simp [List.filterMap_cons, ih]

/-- The ports of the acknowledgment sends, in order. -/
theorem sendRepPorts_acks :
    ∀ l : List Nat,
      sendRepPorts (l.map (fun k => Act.sendRep (5000 + k) .ok)) = l.map (fun k => 5000 + k) := by
  intro l
  induction l with
  | nil => rfl
  | cons k rest ih =>
    simp only [sendRepPorts] at ih ⊢
    simp [List.filterMap_cons, ih]

/-- A plugin rendezvous address is among the addresses the barrier
    binds exactly when the plugin id is below the participant count:
    the barrier binds by loop counter, not by configured id. -/
theorem mem_bindEndpoints_barrier (id total : Nat) :
    Endpoint.inprocSync (5000 + id) ∈ bindEndpoints (barrier_acts total) ↔ id < total := by
  have h1 := bindEndpoints_ready_blocks (List.range total)
  have h2 := bindEndpoints_acks (List.range total).reverse
  have hsplit : bindEndpoints (barrier_acts total)
      = (List.range total).flatMap
          (fun k => [Endpoint.tcpWild (5000 + k), Endpoint.inprocSync (5000 + k)]) := by
    simp only [barrier_acts, bindEndpoints, List.filterMap_append] at h1 h2 ⊢
    rw [h1, h2, List.append_nil]
  rw [hsplit]
  simp only [List.mem_flatMap, List.mem_range]
  constructor
  · rintro ⟨k, hk, hmem⟩
    simp only [List.mem_cons, List.not_mem_nil, or_false] at hmem
    rcases hmem with h | h
    · exact absurd h (by simp)
    · injection h with hp
      omega
  · intro h
    refine ⟨id, h, ?_⟩
    simp

/- ---------------------------------------------------------------------
   The main-thread trace of event_engine. -/

/-- The main trace splits at the first acknowledgment send. -/
theorem event_engine_trace_split (resolve : String → List Nat) :
    event_engine_trace resolve = main_front resolve ++ main_back := by
  rfl

/-- runFn never yields the io Err variant either. -/
theorem runFn_not_ioError (oracle : Nat → Bool) (x : Except String (List Call)) :
    ((runFn oracle x).1).isIoError = false := by
  cases x with
  | error m => rfl
  | ok calls => exact runCallsFrom_not_ioError oracle calls 0

/-- A panic of runFn carries one of the recorded messages. -/
theorem runFn_msgFrom (oracle : Nat → Bool) (x : Except String (List Call)) :
    ((runFn oracle x).1).msgFrom (exceptMsgs x) = true := by
  cases x with
  | error m => simp [runFn, exceptMsgs, Outcome.msgFrom, List.contains_cons]
  | ok calls => exact runCallsFrom_msgFrom oracle calls 0

/-- Any countP that ignores topic resolutions and filter installations
    vanishes on the subscription section. -/
theorem countP_subsec (p : Act → Bool) (resolve : String → List Nat)
    (h1 : ∀ s, p (.resolveTopic s) = false)
    (h2 : ∀ s, p (.setSubscribe (resolve s)) = false) :
    ∀ subs : List String,
      (subs.flatMap (fun s => [Act.resolveTopic s, Act.setSubscribe (resolve s)])).countP p
        = 0 := by
  intro subs
  induction subs with
  | nil => rfl
  | cons s rest ih =>
    simp [List.flatMap_cons, List.countP_append, List.countP_cons, h1, h2, ih]

/- ---------------------------------------------------------------------
   Claim theorems. -/

/-- C1: for the configured participant count N = |in-process| +
    |external| = 3 + 1 = 4, the main-thread trace of event_engine ends
    with the single relay-proxy action, and the part before it contains
    exactly one ready receipt per rendezvous port in [5000, 5004),
    exactly one acknowledgment send per such port, and no other ready
    receipts or acknowledgment sends; hence the relay loop is never
    entered with fewer than N participants acknowledged. -/
theorem c1_barrier_complete_before_relay (resolve : String → List Nat) :
    PLUGINS.length = 3 ∧ EXTERNAL_PLUGINS.length = 1 ∧ total_subscribers_src = 4 ∧
    ∃ pre,
      event_engine_trace resolve
        = pre ++ [Act.proxyRun incoming_endpoints outgoing_endpoints] ∧
      pre.countP isProxy = 0 ∧
      pre.count (Act.recvReq 5000) = 1 ∧ pre.count (Act.recvReq 5001) = 1 ∧
      pre.count (Act.recvReq 5002) = 1 ∧ pre.count (Act.recvReq 5003) = 1 ∧
      pre.count (Act.sendRep 5000 .ok) = 1 ∧ pre.count (Act.sendRep 5001 .ok) = 1 ∧
      pre.count (Act.sendRep 5002 .ok) = 1 ∧ pre.count (Act.sendRep 5003 .ok) = 1 ∧
      pre.countP isRecvReq = 4 ∧ pre.countP isSendRep = 4 := by
  exact ⟨rfl, rfl, rfl, (event_engine_trace resolve).dropLast,
    rfl, rfl, rfl, rfl, rfl, rfl, rfl, rfl, rfl, rfl, rfl, rfl⟩

/-- C2: for every participant count, the barrier trace is exactly the
    ready phase the spec describes — for each counter k in ascending
    order a reply-side handle is created, bound at 5000 + k on both the
    network and the local-process transport, and exactly one request is
    received on it, with address k + 1 bound only after the receipt on
    address k — followed by one acknowledgment reply per handle, and no
    acknowledgment is sent before the ready phase is complete. -/
theorem c2_barrier_two_phases (total : Nat) :
    ∃ cs acks,
      sync_plugins_calls total = .ok cs ∧
      cs.map Call.act = barrier_spec_ready_acts total ++ acks ∧
      acks.Perm (barrier_spec_acks total) := by
  obtain ⟨cs, hcs, hacts⟩ := sync_plugins_acts_spec total
  refine ⟨cs, (List.range total).reverse.map (fun k => Act.sendRep (5000 + k) .ok),
    hcs, ?_, ?_⟩
  · rw [hacts]
    rfl
  · exact (List.reverse_perm (List.range total)).map _

/-- C9: the barrier sends its acknowledgment replies in strictly
    descending rendezvous-port order, the exact reverse of the
    ascending order in which the ready signals were received, because
    the retained reply sockets are popped from the end of the vector
    they were pushed onto; the last participant to check in is
    acknowledged first. -/
theorem c9_acks_descending (total : Nat) :
    ∃ cs,
      sync_plugins_calls total = .ok cs ∧
      sendRepPorts (cs.map Call.act) = (recvReqPorts (cs.map Call.act)).reverse ∧
      recvReqPorts (cs.map Call.act) = (List.range total).map (fun k => 5000 + k) ∧
      List.Pairwise (fun a b => b < a) (sendRepPorts (cs.map Call.act)) := by
  obtain ⟨cs, hcs, hacts⟩ := sync_plugins_acts_spec total
  have hrecv : recvReqPorts (cs.map Call.act)
      = (List.range total).map (fun k => 5000 + k) := by
    rw [hacts]
    simp only [barrier_acts, recvReqPorts, List.filterMap_append]
    have ha := recvReqPorts_ready_blocks (List.range total)
    have hb := recvReqPorts_acks (List.range total).reverse
    simp only [recvReqPorts] at ha hb
    rw [ha, hb, List.append_nil]
  have hsend : sendRepPorts (cs.map Call.act)
      = ((List.range total).map (fun k => 5000 + k)).reverse := by
    rw [hacts]
    simp only [barrier_acts, sendRepPorts, List.filterMap_append]
    have ha := sendRepPorts_ready_blocks (List.range total)
    have hb := sendRepPorts_acks (List.range total).reverse
    simp only [sendRepPorts] at ha hb
    rw [ha, hb, List.nil_append, List.map_reverse]
  refine ⟨cs, hcs, ?_, hrecv, ?_⟩
  · rw [hsend, hrecv]
  · rw [hsend]
    rw [List.pairwise_reverse]
    exact List.Pairwise.map _ (fun a b h => by omega) (List.pairwise_lt_range total)

/-- C4 counterexample: with a single in-process plugin whose id is the
    unique but non-dense value 5 (and no externals), the plugin
    connects its rendezvous handle to the inproc address for port 5005,
    while the barrier binds only port 5000; the connect address is not
    among the bound addresses, refuting the claim that the addresses
    match whenever ids are merely unique. -/
theorem c4_counterexample :
    ∃ cs,
      start_plugins_gen (fun _ => []) [⟨5, [], StartFn.new_image_start⟩] [] = .ok cs ∧
      (connectEndpoints (cs.map Call.act)).contains (Endpoint.inprocSync 5005) = true ∧
      (bindEndpoints (cs.map Call.act)).contains (Endpoint.inprocSync 5005) = false ∧
      bindEndpoints (cs.map Call.act) = [.tcpWild 5000, .inprocSync 5000] := by
  exact ⟨_, rfl, rfl, rfl, rfl⟩

/-- C4 amended: each in-process plugin connects its rendezvous handle
    to the deterministic address 5000 + id of its id, but the barrier
    binds 5000 + k for loop counter k, so the plugin address is among
    the barrier-bound addresses exactly when id < N; matching for all
    participants therefore requires densely assigned ids 0..N-1, which
    the shipped configuration (ids 0,1,2 in-process and 3 external)
    satisfies. -/
theorem c4_amended (resolve : String → List Nat) (id total : Nat) (subs : List String) :
    connectEndpoints ((start_plugin_calls resolve id subs).map Call.act)
      = [.inprocMessages, .inprocEvents, .inprocSync (5000 + id)] ∧
    (∃ cs, sync_plugins_calls total = .ok cs ∧
      (Endpoint.inprocSync (5000 + id) ∈ bindEndpoints (cs.map Call.act) ↔ id < total)) ∧
    PLUGINS.map PluginConfig.plugin_id = [0, 1, 2] ∧
    EXTERNAL_PLUGINS.map ExternalPluginConfig.plugin_id = [3] ∧
    ((PLUGINS.map PluginConfig.plugin_id
        ++ EXTERNAL_PLUGINS.map ExternalPluginConfig.plugin_id).all
      (fun i => decide (i < total_subscribers_src))) = true := by
  refine ⟨connectEndpoints_start_plugin resolve id subs, ?_, rfl, rfl, rfl⟩
  obtain ⟨cs, hcs, hacts⟩ := sync_plugins_acts_spec total
  refine ⟨cs, hcs, ?_⟩
  rw [hacts]
  exact mem_bindEndpoints_barrier id total

/-- C5: start_plugin opens all three handles before the spawn — the
    trace is the wiring followed by the spawn, the wiring spawns
    nothing, connects the publish handle to the address the ingress
    socket binds, the subscribe handle to the address the egress socket
    binds, installs exactly one resolved filter per declared
    subscription (none for an empty subscription list), and any failure
    in the wiring panics; inside the full engine, failing a wiring call
    panics the engine before the relay proxy ever runs. -/
theorem c5_plugin_wiring (resolve : String → List Nat) (id : Nat) (subs : List String) :
    (∃ wiring,
      (start_plugin_calls resolve id subs).map Call.act = wiring ++ [Act.spawnThread id] ∧
      wiring.countP isSpawn = 0 ∧
      connectEndpoints wiring = [.inprocMessages, .inprocEvents, .inprocSync (5000 + id)] ∧
      subscribeFilters wiring = subs.map resolve) ∧
    subscribeFilters ((start_plugin_calls resolve id []).map Call.act) = [] ∧
    Endpoint.inprocMessages ∈ bindEndpoints (get_incoming_socket_calls.map Call.act) ∧
    Endpoint.inprocEvents ∈ bindEndpoints (get_outgoing_socket_calls.map Call.act) ∧
    (∀ oracle : Nat → Bool,
      ((runCallsFrom oracle 0 (start_plugin_calls resolve id subs)).1).isPanicked
        = failsSome oracle 0 (start_plugin_calls resolve id subs)) ∧
    (runFn (fun i => i == 14) (event_engine_calls resolve)).1
      = .panicked "could not create pub socket." ∧
    ((runFn (fun i => i == 14) (event_engine_calls resolve)).2).countP isProxy = 0 := by
  refine ⟨⟨[Act.createSocket .pub, .connect .inprocMessages,
            .createSocket .sub, .connect .inprocEvents]
      ++ subs.flatMap (fun s => [Act.resolveTopic s, Act.setSubscribe (resolve s)])
      ++ [.createSocket .req, .connect (.inprocSync (5000 + id))], ?_, ?_, ?_, ?_⟩,
    subscribeFilters_start_plugin resolve id [], by decide,
    by decide,
    fun oracle => runCallsFrom_isPanicked oracle (start_plugin_calls resolve id subs) 0,
    rfl, rfl⟩
  · rw [start_plugin_acts]
    simp [List.append_assoc]
  · simp only [List.countP_append]
    rw [countP_subsec isSpawn resolve (fun s => rfl) (fun s => rfl) subs]
    rfl
  · simp only [connectEndpoints, List.filterMap_append]
    rw [filterMap_subsec _ resolve (fun s => rfl) (fun s => rfl) subs]
    rfl
  · simp only [subscribeFilters, List.filterMap_append]
    have h := subscribeFilters_subsec resolve subs
    simp only [subscribeFilters] at h
    rw [h]
    simp

/-- C6: the egress socket binds exactly tcp port 5560 and the inproc
    events address; the ingress socket binds exactly tcp port 5559 and
    the inproc messages address and installs the accept-everything
    empty-prefix filter; a bind failure panics immediately with the
    source message and no further (fallback) bind is attempted. -/
theorem c6_fixed_endpoints_no_fallback :
    get_outgoing_socket_calls.map Call.act
      = [.createSocket .pub, .bind (.tcpWild 5560), .bind .inprocEvents] ∧
    get_incoming_socket_calls.map Call.act
      = [.createSocket .sub, .bind (.tcpWild 5559), .bind .inprocMessages,
         .setSubscribe []] ∧
    (Endpoint.tcpWild 5560).render = "tcp://*:5560" ∧
    Endpoint.inprocEvents.render = "inproc://events" ∧
    (Endpoint.tcpWild 5559).render = "tcp://*:5559" ∧
    Endpoint.inprocMessages.render = "inproc://messages" ∧
    runCallsFrom (fun i => i == 1) 0 get_outgoing_socket_calls
      = (.panicked "Engine could not bind outgoing TCP socket", [.createSocket .pub]) ∧
    runCallsFrom (fun i => i == 2) 0 get_outgoing_socket_calls
      = (.panicked "Engine could not bind outgoing inproc socket",
         [.createSocket .pub, .bind (.tcpWild 5560)]) ∧
    runCallsFrom (fun i => i == 1) 0 get_incoming_socket_calls
      = (.panicked "Engine could not bind incoming TCP socket", [.createSocket .sub]) ∧
    runCallsFrom (fun i => i == 2) 0 get_incoming_socket_calls
      = (.panicked "Engine could not bind incoming inproc socket",
         [.createSocket .sub, .bind (.tcpWild 5559)]) := by
  exact ⟨rfl, rfl, rfl, rfl, rfl, rfl, rfl, rfl, rfl, rfl⟩

/-- C7: under every failure oracle, none of the five Result-returning
    engine functions ever produces the Err variant — a run ends ok,
    diverges, or panics; every panic carries one of the descriptive
    source messages, all of which are nonempty; and a start_plugin run
    panics exactly when some call fails. -/
theorem c7_failures_panic_never_err (resolve : String → List Nat) (oracle : Nat → Bool)
    (id total : Nat) (subs : List String) :
    ((runCallsFrom oracle 0 get_outgoing_socket_calls).1).isIoError = false ∧
    ((runCallsFrom oracle 0 get_incoming_socket_calls).1).isIoError = false ∧
    ((runCallsFrom oracle 0 (start_plugin_calls resolve id subs)).1).isIoError = false ∧
    ((runFn oracle (sync_plugins_calls total)).1).isIoError = false ∧
    ((runFn oracle (start_plugins_calls resolve)).1).isIoError = false ∧
    ((runCallsFrom oracle 0 get_outgoing_socket_calls).1).msgFrom
      (callMsgs get_outgoing_socket_calls) = true ∧
    ((runCallsFrom oracle 0 get_incoming_socket_calls).1).msgFrom
      (callMsgs get_incoming_socket_calls) = true ∧
    ((runCallsFrom oracle 0 (start_plugin_calls resolve id subs)).1).msgFrom
      (callMsgs (start_plugin_calls resolve id subs)) = true ∧
    ((runFn oracle (sync_plugins_calls total)).1).msgFrom
      (exceptMsgs (sync_plugins_calls total)) = true ∧
    ((runFn oracle (start_plugins_calls resolve)).1).msgFrom
      (exceptMsgs (start_plugins_calls resolve)) = true ∧
    ((runCallsFrom oracle 0 (start_plugin_calls resolve id subs)).1).isPanicked
      = failsSome oracle 0 (start_plugin_calls resolve id subs) ∧
    (callMsgs get_outgoing_socket_calls).all (fun m => !m.isEmpty) = true ∧
    (callMsgs get_incoming_socket_calls).all (fun m => !m.isEmpty) = true ∧
    (callMsgs (start_plugin_calls resolve id subs)).all (fun m => !m.isEmpty) = true ∧
    (exceptMsgs (sync_plugins_calls total_subscribers_src)).all (fun m => !m.isEmpty) = true ∧
    (exceptMsgs (start_plugins_calls resolve)).all (fun m => !m.isEmpty) = true := by
  exact ⟨runCallsFrom_not_ioError oracle _ 0,
    runCallsFrom_not_ioError oracle _ 0,
    runCallsFrom_not_ioError oracle _ 0,
    runFn_not_ioError oracle _,
    runFn_not_ioError oracle _,
    runCallsFrom_msgFrom oracle _ 0,
    runCallsFrom_msgFrom oracle _ 0,
    runCallsFrom_msgFrom oracle _ 0,
    runFn_msgFrom oracle _,
    runFn_msgFrom oracle _,
    runCallsFrom_isPanicked oracle _ 0,
    rfl, rfl,
    callMsgs_start_plugin_nonempty resolve id subs,
    rfl, rfl⟩

/-- C8: event_engine performs, in order: the egress socket setup, the
    ingress socket setup, the launch and wiring of every configured
    in-process plugin, the complete synchronization barrier, and only
    then the single relay-proxy action with the ingress socket as
    frontend and the egress socket as backend; under no failure the
    engine diverges in the proxy (never returns), and a proxy-level
    transport error panics with the source message; the relay itself
    (the external zmq proxy contract, modelled from the spec) forwards
    every ingress message to egress unchanged. -/
theorem c8_engine_order_and_relay (resolve : String → List Nat) :
    ∃ cs,
      event_engine_calls resolve = .ok cs ∧
      cs.map Call.act
        = get_outgoing_socket_calls.map Call.act
          ++ get_incoming_socket_calls.map Call.act
          ++ PLUGINS.flatMap
              (fun p => (start_plugin_calls resolve p.plugin_id p.subscriptions).map Call.act)
          ++ barrier_acts total_subscribers_src
          ++ [Act.proxyRun incoming_endpoints outgoing_endpoints] ∧
      (runFn (fun _ => false) (event_engine_calls resolve)).1 = .diverged ∧
      (runFn (fun i => i == 52) (event_engine_calls resolve)).1
        = .panicked "Engine got error running proxy; socket was closed?" ∧
      (∀ ms : List (List Nat), relay_forward ms = ms) := by
  exact ⟨_, rfl, rfl, rfl, rfl, fun ms => rfl⟩

/-- C10: every handle start_plugin opens for an in-process plugin is
    connected over the local-process transport only — the publish
    handle to inproc messages, the subscribe handle to inproc events,
    the rendezvous handle to inproc sync-(5000 + id), rendering to the
    literal source endpoint strings — and neither the wiring nor the
    plugin thread binds or connects any TCP endpoint; the TCP bindings
    live on the engine-side ingress, egress and rendezvous sockets. -/
theorem c10_plugin_side_inproc_only (resolve : String → List Nat) (id : Nat)
    (subs : List String) :
    connectEndpoints ((start_plugin_calls resolve id subs).map Call.act)
      = [.inprocMessages, .inprocEvents, .inprocSync (5000 + id)] ∧
    ([Endpoint.inprocMessages, .inprocEvents, .inprocSync (5000 + id)].all
      Endpoint.isInproc) = true ∧
    bindEndpoints ((start_plugin_calls resolve id subs).map Call.act) = [] ∧
    connectEndpoints (plugin_thread_trace id) = [] ∧
    bindEndpoints (plugin_thread_trace id) = [] ∧
    ([Endpoint.inprocMessages, .inprocEvents, .inprocSync (5000 + id)].map Endpoint.render)
      = ["inproc://messages", "inproc://events", "inproc://sync-" ++ toString (5000 + id)] ∧
    bindEndpoints (get_outgoing_socket_calls.map Call.act) = outgoing_endpoints ∧
    bindEndpoints (get_incoming_socket_calls.map Call.act) = incoming_endpoints ∧
    (∃ cs, sync_plugins_calls total_subscribers_src = .ok cs ∧
      bindEndpoints (cs.map Call.act)
        = [.tcpWild 5000, .inprocSync 5000, .tcpWild 5001, .inprocSync 5001,
           .tcpWild 5002, .inprocSync 5002, .tcpWild 5003, .inprocSync 5003]) := by
  refine ⟨connectEndpoints_start_plugin resolve id subs, rfl,
    bindEndpoints_start_plugin resolve id subs, rfl, rfl, rfl, rfl, rfl, _, rfl, rfl⟩

/- ---------------------------------------------------------------------
   Facts about valid schedules, towards claim C3. -/

/-- Decoding validity: every event belongs to a thread. -/
theorem valid_events_lt {threads : List (List Act)} {s : List (Nat × Act)}
    (h : validExecB threads s = true) : ∀ e ∈ s, e.1 < threads.length := by
  simp only [validExecB, Bool.and_eq_true, List.all_eq_true, decide_eq_true_eq] at h
  exact h.1.1

/-- Decoding validity: the projection onto each thread is a prefix of
    that thread trace. -/
theorem valid_proj_of_thread {threads : List (List Act)} {s : List (Nat × Act)}
    (h : validExecB threads s = true) :
    ∀ t, t < threads.length → proj s t <+: threads.getD t [] := by
  simp only [validExecB, Bool.and_eq_true, List.all_eq_true, List.mem_range] at h
  intro t ht
  exact List.isPrefixOf_iff_prefix.mp (h.1.2 t ht)

/-- Decoding validity: the causality check holds at every position. -/
theorem valid_earlier {threads : List (List Act)} {s : List (Nat × Act)}
    (h : validExecB threads s = true) : ∀ i, i < s.length → earlierSendOk s i = true := by
  simp only [validExecB, Bool.and_eq_true, List.all_eq_true, List.mem_range] at h
  exact h.2

/-- An event of thread t appears in the projection onto t. -/
theorem mem_proj_of_mem {s : List (Nat × Act)} {t : Nat} {a : Act}
    (h : (t, a) ∈ s) : a ∈ proj s t := by
  simp only [proj, List.mem_map, List.mem_filter]
  exact ⟨(t, a), ⟨h, by simp⟩, rfl⟩

/-- An action in the projection onto t comes from an event of t. -/
theorem mem_of_mem_proj {s : List (Nat × Act)} {t : Nat} {a : Act}
    (h : a ∈ proj s t) : (t, a) ∈ s := by
  simp only [proj, List.mem_map, List.mem_filter] at h
  obtain ⟨e, ⟨hmem, ht⟩, ha⟩ := h
  have h1 : e.1 = t := by simpa using ht
  have : e = (t, a) := by
    cases e
    simp_all
  rw [← this]
  exact hmem

/-- A predicate counted zero times never holds for a member. -/
theorem countP_zero_not_mem {alpha : Type} {p : alpha → Bool} {l : List alpha}
    (h : l.countP p = 0) {a : alpha} (ha : p a = true) : a ∉ l := by
  intro hmem
  have hpos : 0 < l.countP p := List.countP_pos_iff.mpr ⟨a, hmem, ha⟩
  omega

/-- A prefix of X ++ B that contains an element not in X contains all
    of X. -/
theorem mem_prefix_split {alpha : Type} {X B l : List alpha} (h : l <+: X ++ B)
    {x y : alpha} (hx : x ∈ l) (hxX : x ∉ X) (hyX : y ∈ X) : y ∈ l := by
  have hl : l = (X ++ B).take l.length := List.prefix_iff_eq_take.mp h
  rw [List.take_append_eq_append_take] at hl
  by_cases hlen : l.length ≤ X.length
  · have h0 : l.length - X.length = 0 := by omega
    rw [h0, List.take_zero, List.append_nil] at hl
    exact absurd (List.take_subset _ _ (hl ▸ hx)) hxX
  · have hX : X.take l.length = X := List.take_of_length_le (by omega)
    rw [hX] at hl
    rw [hl]
    exact List.mem_append.mpr (Or.inl hyX)

/-- The engine main trace performs no entry-point invocation. -/
theorem invoke_not_in_main (resolve : String → List Nat) (pid : Nat) (b : List Nat) :
    Act.invokeEntry pid b ∉ event_engine_trace resolve := by
  have h : (event_engine_trace resolve).countP
      (fun a => match a with | Act.invokeEntry _ _ => true | _ => false) = 0 := by rfl
  exact countP_zero_not_mem h rfl

/-- The engine main trace sends no acknowledgment before main_back. -/
theorem sendRep_not_in_main_front (resolve : String → List Nat) (p : Nat) (m : SyncMsg) :
    Act.sendRep p m ∉ main_front resolve := by
  have h : (main_front resolve).countP isSendRep = 0 := by rfl
  exact countP_zero_not_mem h rfl

/-- All four ready receipts lie in main_front. -/
theorem recvReq_in_main_front (resolve : String → List Nat) (q : Nat)
    (hq : q = 5000 ∨ q = 5001 ∨ q = 5002 ∨ q = 5003) :
    Act.recvReq q ∈ main_front resolve := by
  simp only [main_front, List.mem_append]
  refine Or.inr ?_
  rcases hq with h | h | h | h <;> subst h <;> decide

/-- A prefix of a plugin thread trace containing the entry invocation
    is the whole trace: the ready request was sent and the reply was
    received before, the invoked id is the thread id, and the builder
    is fresh. -/
theorem prefix_plugin_thread {l : List Act} {id pid : Nat} {b : List Nat}
    (h : l <+: plugin_thread_trace id) (hmem : Act.invokeEntry pid b ∈ l) :
    Act.recvRep (5000 + id) ∈ l ∧ pid = id ∧ b = [] := by
  obtain ⟨t, ht⟩ := h
  simp only [plugin_thread_trace, plugin_thread_calls, List.map_cons, List.map_nil] at ht
  rcases l with _ | ⟨a1, _ | ⟨a2, _ | ⟨a3, l3⟩⟩⟩
  · simp at hmem
  · simp only [List.cons_append, List.nil_append] at ht
    injection ht with h1 h2
    subst h1
    simp at hmem
  · simp only [List.cons_append, List.nil_append] at ht
    injection ht with h1 h2
    injection h2 with h2 h3
    subst h1
    subst h2
    simp at hmem
  · simp only [List.cons_append] at ht
    injection ht with h1 h2
    injection h2 with h2 h3
    injection h3 with h3 h4
    have hl3 : l3 = [] := by
      cases l3 with
      | nil => rfl
      | cons u us => simp at h4
    subst h1
    subst h2
    subst h3
    subst hl3
    simp only [List.mem_cons, List.not_mem_nil, or_false] at hmem
    rcases hmem with h | h | h
    · exact absurd h (by simp)
    · exact absurd h (by simp)
    · injection h with hp hb
      exact ⟨by simp, hp, hb⟩

/-- Decoding the per-port send check. -/
theorem actSendsRep_eq {p : Nat} {a : Act} (h : actSendsRep p a = true) :
    ∃ m, a = Act.sendRep p m := by
  cases a <;> simp [actSendsRep] at h
  case sendRep q m =>
    exact ⟨m, by rw [h]⟩

/-- In a valid schedule, a reply receipt on a port is preceded by (in
    particular, accompanied by) a reply send on the same port. -/
theorem sendRep_exists_of_recvRep {threads : List (List Act)} {s : List (Nat × Act)}
    (hvalid : validExecB threads s = true) {tid p : Nat}
    (hmem : (tid, Act.recvRep p) ∈ s) :
    ∃ tj m, (tj, Act.sendRep p m) ∈ s := by
  obtain ⟨i, hi, hie⟩ := List.getElem_of_mem hmem
  have hok := valid_earlier hvalid i hi
  rw [earlierSendOk] at hok
  rw [List.getD_eq_getElem s dummyEv hi, hie] at hok
  simp only [List.any_eq_true, List.mem_range] at hok
  obtain ⟨j, hj, hsend⟩ := hok
  have hjlen : j < s.length := by omega
  rw [List.getD_eq_getElem s dummyEv hjlen] at hsend
  obtain ⟨m, hm⟩ := actSendsRep_eq hsend
  refine ⟨(s[j]).1, m, ?_⟩
  have : s[j] = ((s[j]).1, Act.sendRep p m) := by
    rw [← hm]
  rw [← this]
  exact List.getElem_mem hjlen

/-- Only the main thread of the system ever sends an acknowledgment. -/
theorem sendRep_only_main (resolve : String → List Nat) {tid p : Nat} {m : SyncMsg}
    (htid : tid < (system_threads resolve).length)
    (hmem : Act.sendRep p m ∈ (system_threads resolve).getD tid []) : tid = 0 := by
  have h5 : (system_threads resolve).length = 5 := rfl
  rw [h5] at htid
  interval_cases tid
  · rfl
  · rw [show (system_threads resolve).getD 1 [] = plugin_thread_trace 0 from rfl] at hmem
    exact absurd hmem (by simp [plugin_thread_trace, plugin_thread_calls])
  · rw [show (system_threads resolve).getD 2 [] = plugin_thread_trace 1 from rfl] at hmem
    exact absurd hmem (by simp [plugin_thread_trace, plugin_thread_calls])
  · rw [show (system_threads resolve).getD 3 [] = plugin_thread_trace 2 from rfl] at hmem
    exact absurd hmem (by simp [plugin_thread_trace, plugin_thread_calls])
  · rw [show (system_threads resolve).getD 4 [] = external_participant_trace 3 from rfl] at hmem
    exact absurd hmem (by simp [external_participant_trace])

/-- In a valid schedule in which some acknowledgment send occurred,
    all four ready receipts already occurred on the main thread. -/
theorem ready_receipts_of_sendRep {resolve : String → List Nat} {s : List (Nat × Act)}
    (hvalid : validExecB (system_threads resolve) s = true) {tj p : Nat} {m : SyncMsg}
    (hmem : (tj, Act.sendRep p m) ∈ s) :
    (0, Act.recvReq 5000) ∈ s ∧ (0, Act.recvReq 5001) ∈ s ∧
    (0, Act.recvReq 5002) ∈ s ∧ (0, Act.recvReq 5003) ∈ s := by
  have htj : tj < (system_threads resolve).length := valid_events_lt hvalid _ hmem
  have hproj : Act.sendRep p m ∈ proj s tj := mem_proj_of_mem hmem
  have hpre := valid_proj_of_thread hvalid tj htj
  have htj0 : tj = 0 := sendRep_only_main resolve htj (hpre.subset hproj)
  subst htj0
  have hpre0 : proj s 0 <+: main_front resolve ++ main_back := hpre
  have hget : ∀ q, q = 5000 ∨ q = 5001 ∨ q = 5002 ∨ q = 5003 →
      (0, Act.recvReq q) ∈ s := by
    intro q hq
    exact mem_of_mem_proj
      (mem_prefix_split hpre0 hproj (sendRep_not_in_main_front resolve p m)
        (recvReq_in_main_front resolve q hq))
  exact ⟨hget 5000 (by omega), hget 5001 (by omega), hget 5002 (by omega),
    hget 5003 (by omega)⟩

/-- C3: in every valid schedule of the system (engine main thread,
    one thread per in-process plugin, one external participant), no
    entry-point invocation occurs before the barrier has received the
    ready signal of all four participants: any schedule containing an
    invocation already contains all four ready receipts of the main
    thread; moreover the invoking thread sent its ready request and
    received the engine reply before invoking, and the entry point
    receives a freshly created empty encode buffer. -/
theorem c3_no_entry_before_barrier (resolve : String → List Nat)
    (s : List (Nat × Act)) (tid pid : Nat) (b : List Nat)
    (hvalid : validExecB (system_threads resolve) s = true)
    (hmem : (tid, Act.invokeEntry pid b) ∈ s) :
    ((0, Act.recvReq 5000) ∈ s ∧ (0, Act.recvReq 5001) ∈ s ∧
     (0, Act.recvReq 5002) ∈ s ∧ (0, Act.recvReq 5003) ∈ s) ∧
    b = [] ∧
    plugin_thread_trace pid
      = [Act.sendReq (5000 + pid) .ready, Act.recvRep (5000 + pid),
         Act.invokeEntry pid []] := by
  have htid : tid < (system_threads resolve).length := valid_events_lt hvalid _ hmem
  have hproj : Act.invokeEntry pid b ∈ proj s tid := mem_proj_of_mem hmem
  have hpre := valid_proj_of_thread hvalid tid htid
  have h5 : (system_threads resolve).length = 5 := rfl
  rw [h5] at htid
  have chain : ∀ id : Nat, proj s tid <+: plugin_thread_trace id →
      ((0, Act.recvReq 5000) ∈ s ∧ (0, Act.recvReq 5001) ∈ s ∧
       (0, Act.recvReq 5002) ∈ s ∧ (0, Act.recvReq 5003) ∈ s) ∧ pid = id ∧ b = [] := by
    intro id hpr
    obtain ⟨hrecv, hpid, hb⟩ := prefix_plugin_thread hpr hproj
    have hrs : (tid, Act.recvRep (5000 + id)) ∈ s := mem_of_mem_proj hrecv
    obtain ⟨tj, m, hsend⟩ := sendRep_exists_of_recvRep hvalid hrs
    exact ⟨ready_receipts_of_sendRep hvalid hsend, hpid, hb⟩
  interval_cases tid
  · exact absurd (hpre.subset hproj) (invoke_not_in_main resolve pid b)
  · obtain ⟨hready, hpid, hb⟩ := chain 0 hpre
    subst hpid
    subst hb
    exact ⟨hready, rfl, rfl⟩
  · obtain ⟨hready, hpid, hb⟩ := chain 1 hpre
    subst hpid
    subst hb
    exact ⟨hready, rfl, rfl⟩
  · obtain ⟨hready, hpid, hb⟩ := chain 2 hpre
    subst hpid
    subst hb
    exact ⟨hready, rfl, rfl⟩
  · exact absurd (hpre.subset hproj)
      (by rw [show (system_threads resolve).getD 4 [] = external_participant_trace 3 from rfl]
          simp [external_participant_trace])

/-- Witness for C3: the concrete schedule sched_wit is valid, contains
    the entry invocation of plugin 0 on thread 1, and indeed contains
    all four ready receipts. -/
theorem c3_no_entry_before_barrier_witness :
    ((0, Act.recvReq 5000) ∈ sched_wit ∧ (0, Act.recvReq 5001) ∈ sched_wit ∧
     (0, Act.recvReq 5002) ∈ sched_wit ∧ (0, Act.recvReq 5003) ∈ sched_wit) ∧
    ([] : List Nat) = [] ∧
    plugin_thread_trace 0
      = [Act.sendReq (5000 + 0) .ready, Act.recvRep (5000 + 0), Act.invokeEntry 0 []] :=
  c3_no_entry_before_barrier (fun _ => []) sched_wit 1 0 [] (by decide) (by decide)

end Plyoreacto
